import Mathlib

/-!
Shallow embedding of the grid-stitching engine (tile preprocessing, grid
layout, manual transform overrides, feather blending, canvas composition,
gap repair and constrained seam inpainting) together with proofs about the
claims of its specification.

Images, masks and occupancy buffers are modelled as flat lists of natural
numbers (uint8 pixel values); rationals stand in for Python floats.
External OpenCV primitives (inpainting, dilation, Gaussian blur,
morphological closing, colour conversion, contour fitting) are abstracted
as function parameters: the logic proved here is the surrounding control
flow and arithmetic, which the source defines itself.
-/

namespace Stitch

/- ## Pixel-buffer primitives -/

/-- Model of `np.count_nonzero` on a flattened buffer. -/
def countNonzero (m : List Nat) : Nat :=
  m.countP (fun v => decide (v ≠ 0))

/-- Number of zero-valued pixels (mask value 0 marks content in the
background-mask convention of the source). -/
def countZero (m : List Nat) : Nat :=
  m.countP (fun v => decide (v = 0))

/-- Model of `buffer.mean()` as an exact rational.  For an empty buffer
numpy returns NaN; gates comparing the mean therefore go through
`meanLtGate`, which is false on an empty buffer exactly as every
comparison with NaN is false. -/
def maskMean (m : List Nat) : ℚ :=
  (m.sum : ℚ) / (m.length : ℚ)

/-- Model of the Python test `buffer.mean() < t`.  On an empty buffer the
mean is NaN and the comparison is false, hence the length guard. -/
def meanLtGate (m : List Nat) (t : ℚ) : Bool :=
  decide (0 < m.length) && decide (maskMean m < t)

/- ## Seam fill (core/seamfill.py) and the worker's gap-repair stage -/

/-- Inpaint method selector, `core/types.py` `InpaintMethod`. -/
inductive InpaintMethod where
  | telea
  | ns
  | edge_extend
deriving DecidableEq, Repr

/-- External OpenCV primitives used by the seam-fill path, abstracted:
`cv2.inpaint` with INPAINT_TELEA, `cv2.inpaint` with INPAINT_NS, and
`cv2.dilate` with a 3x3 rectangular kernel. -/
structure InpaintOps where
  telea : List Nat → List Nat → Nat → List Nat
  ns : List Nat → List Nat → Nat → List Nat
  dilate3x3 : List Nat → List Nat

/-- Trivial instantiation of the external primitives, used to evaluate the
pipeline on concrete inputs. -/
def trivialOps : InpaintOps :=
  ⟨fun image _ _ => image, fun image _ _ => image, fun mask => mask⟩

/-- Result record of `seam_fill`, `core/seamfill.py`. -/
structure SeamFillResult where
  filled : List Nat
  filled_px : Nat
deriving DecidableEq, Repr

/-- Model of `edge_extend` (`core/seamfill.py`): dilate the mask by a 3x3
kernel, then fast-marching inpaint at radius 1. -/
def edge_extend (ops : InpaintOps) (image mask : List Nat) : List Nat :=
  ops.telea image (ops.dilate3x3 mask) 1

/-- Model of `seam_fill` (`core/seamfill.py`): binarize the mask to 0/255,
dispatch on the configured method, record the nonzero pixel count. -/
def seam_fill (ops : InpaintOps) (image mask : List Nat)
    (method : InpaintMethod) (radius : Nat) : SeamFillResult :=
  let fill_mask := mask.map (fun v => if 0 < v then 255 else 0)
  match method with
  | .edge_extend => ⟨edge_extend ops image fill_mask, countNonzero fill_mask⟩
  | .ns => ⟨ops.ns image fill_mask radius, countNonzero fill_mask⟩
  | .telea => ⟨ops.telea image fill_mask radius, countNonzero fill_mask⟩

/-- The seam-fill related fields of `StitchSettings` (`core/types.py`). -/
structure SeamFillSettings where
  seam_fill_enabled : Bool
  protect_lines : Bool
  seam_fill_max_px : Int
  inpaint_method : InpaintMethod
  inpaint_radius : Nat

/-- Model of `gap_mask = (occupancy == 0).astype(np.uint8) * 255`
(`app/worker.py`, StitchWorker._run). -/
def gapMaskOf (occupancy : List Nat) : List Nat :=
  occupancy.map (fun v => if v = 0 then 255 else 0)

/-- Model of `StitchWorker._limit_seam_mask`.  The distance transform is
external; `withinDist` records, per pixel, whether the distance to non-gap
content is at most `seam_fill_max_px`, so `(dist <= max_px) * 255` is
`if withinDist then 255 else 0` and the result is the bitwise and of the
gap mask with it.  For `seam_fill_max_px <= 0` a copy of the gap mask is
returned. -/
def limit_seam_mask (gap_mask : List Nat) (seam_fill_max_px : Int)
    (withinDist : List Bool) : List Nat :=
  if seam_fill_max_px ≤ 0 then gap_mask
  else (gap_mask.zip withinDist).map
    (fun p => Nat.land p.1 (if p.2 then 255 else 0))

/-- Model of `seam_mask[protect_mask > 0] = 0` (`app/worker.py` line 116). -/
def subtractProtect (seam_mask protect : List Nat) : List Nat :=
  (seam_mask.zip protect).map (fun p => if 0 < p.2 then 0 else p.1)

/-- The candidate seam-fill mask built inside the seam-fill stage of
`StitchWorker._run` (lines 113-116): gap pixels, distance limited, with
the protect mask subtracted.  When `protect_lines` is off the worker uses
an all-zero protect mask of canvas shape. -/
def stageSeamMask (s : SeamFillSettings) (H W : Nat) (occupancy : List Nat)
    (withinDist : List Bool) (protect : List Nat) : List Nat :=
  let protectMask := if s.protect_lines then protect else List.replicate (H * W) 0
  subtractProtect (limit_seam_mask (gapMaskOf occupancy) s.seam_fill_max_px withinDist)
    protectMask

/-- The guard chain of the seam-fill stage (`app/worker.py` lines 113-119):
seam fill is enabled, `seam_mask.mean() < 1.0`, and
`fill_area / float(canvas_h * canvas_w) < 0.005`. -/
def seamFillExecutes (s : SeamFillSettings) (H W : Nat)
    (seam_mask : List Nat) : Bool :=
  s.seam_fill_enabled
    && meanLtGate seam_mask 1
    && decide ((countNonzero seam_mask : ℚ) / ((H * W : Nat) : ℚ) < 5 / 1000)

/-- The seam-fill stage of `StitchWorker._run` (lines 113-123) as a canvas
transformer: when every guard passes the canvas is replaced by the result
of `seam_fill` at the configured method and radius, otherwise (disabled,
mask mean at least 1, or area at least 0.5 percent, the latter being the
logged skip) the canvas is returned unchanged. -/
def seamFillStage (ops : InpaintOps) (s : SeamFillSettings) (H W : Nat)
    (canvas : List Nat) (occupancy : List Nat) (withinDist : List Bool)
    (protect : List Nat) : List Nat :=
  if seamFillExecutes s H W (stageSeamMask s H W occupancy withinDist protect) then
    (seam_fill ops canvas (stageSeamMask s H W occupancy withinDist protect)
      s.inpaint_method s.inpaint_radius).filled
  else canvas

/- ## Helper lemmas about 0/255-valued masks -/

/-- Every pixel of a gap mask is 0 or 255. -/
theorem gapMaskOf_vals (occ : List Nat) :
    ∀ v ∈ gapMaskOf occ, v = 0 ∨ v = 255 := by
  intro v hv
  rcases List.mem_map.mp hv with ⟨u, _, rfl⟩
  by_cases h : u = 0 <;> simp [h]

/-- `Nat.land v m` for `v` in {0, 255} and `m` in {0, 255} stays in {0, 255}. -/
theorem land_mask_vals (v : Nat) (b : Bool) (hv : v = 0 ∨ v = 255) :
    Nat.land v (if b then 255 else 0) = 0 ∨ Nat.land v (if b then 255 else 0) = 255 := by
  rcases hv with rfl | rfl <;> cases b <;> simp <;> decide

/-- Distance limiting preserves 0/255-valuedness. -/
theorem limit_seam_mask_vals (gap : List Nat) (mx : Int) (wd : List Bool)
    (h : ∀ v ∈ gap, v = 0 ∨ v = 255) :
    ∀ v ∈ limit_seam_mask gap mx wd, v = 0 ∨ v = 255 := by
  intro v hv
  unfold limit_seam_mask at hv
  split at hv
  · exact h v hv
  · rcases List.mem_map.mp hv with ⟨p, hp, rfl⟩
    exact land_mask_vals p.1 p.2 (h p.1 (List.of_mem_zip hp).1)

/-- Protect subtraction preserves 0/255-valuedness. -/
theorem subtractProtect_vals (seam protect : List Nat)
    (h : ∀ v ∈ seam, v = 0 ∨ v = 255) :
    ∀ v ∈ subtractProtect seam protect, v = 0 ∨ v = 255 := by
  intro v hv
  rcases List.mem_map.mp hv with ⟨p, hp, rfl⟩
  by_cases hz : 0 < p.2
  · simp [hz]
  · simpa [hz] using h p.1 (List.of_mem_zip hp).1

/-- The candidate seam-fill mask is 0/255-valued. -/
theorem stageSeamMask_vals (s : SeamFillSettings) (H W : Nat) (occ : List Nat)
    (wd : List Bool) (protect : List Nat) :
    ∀ v ∈ stageSeamMask s H W occ wd protect, v = 0 ∨ v = 255 := by
  intro v hv
  exact subtractProtect_vals _ _
    (limit_seam_mask_vals _ _ _ (gapMaskOf_vals occ)) v hv

/-- Sum of a 0/255-valued buffer is 255 times its nonzero count. -/
theorem sum_eq_255_mul_countNonzero (m : List Nat)
    (h : ∀ v ∈ m, v = 0 ∨ v = 255) :
    m.sum = 255 * countNonzero m := by
  induction m with
  | nil => simp [countNonzero]
  | cons a t ih =>
    have ha := h a (List.mem_cons_self a t)
    have ht : ∀ v ∈ t, v = 0 ∨ v = 255 := fun v hv => h v (List.mem_cons_of_mem a hv)
    rcases ha with rfl | rfl <;>
      simp [countNonzero, List.countP_cons, ih ht] <;> ring

/-- Length bookkeeping for the candidate seam-fill mask. -/
theorem stageSeamMask_length (s : SeamFillSettings) (H W : Nat) (occ : List Nat)
    (wd : List Bool) (protect : List Nat)
    (hocc : occ.length = H * W) (hwd : wd.length = H * W)
    (hprot : protect.length = H * W) :
    (stageSeamMask s H W occ wd protect).length = H * W := by
  unfold stageSeamMask subtractProtect limit_seam_mask gapMaskOf
  by_cases hp : s.protect_lines <;> by_cases hm : s.seam_fill_max_px ≤ 0 <;>
    simp [hp, hm, hocc, hwd, hprot]

/-- The mean gate is false when the mask's nonzero count reaches the
0.5 percent area bound (0/255-valued mask of canvas size). -/
theorem meanLtGate_false_of_large_count (m : List Nat) (total : Nat)
    (hvals : ∀ v ∈ m, v = 0 ∨ v = 255) (hlen : m.length = total)
    (harea : total ≤ 200 * countNonzero m) :
    meanLtGate m 1 = false := by
  have hsum : m.sum = 255 * countNonzero m := sum_eq_255_mul_countNonzero m hvals
  by_cases h0 : m.length = 0
  · unfold meanLtGate
    simp [h0]
  · have hge : m.length ≤ m.sum := by omega
    have hlenpos : (0 : ℚ) < (m.length : ℚ) := by
      exact_mod_cast Nat.pos_of_ne_zero h0
    have hnotlt : ¬ (maskMean m < 1) := by
      unfold maskMean
      apply not_lt.mpr
      rw [le_div_iff hlenpos, one_mul]
      exact_mod_cast hge
    unfold meanLtGate
    rw [decide_eq_false hnotlt, Bool.and_false]

/-- C1: for every canvas and every candidate seam-fill mask (gap pixels
distance-limited with the protect mask subtracted), if the nonzero pixel
count of the mask is at least 0.5 percent of the canvas pixel count then
the seam-fill inpainting step does not execute and the seam-fill stage
returns the canvas unchanged. -/
theorem seamFill_skipped_when_area_ge_half_percent
    (ops : InpaintOps) (s : SeamFillSettings) (H W : Nat)
    (canvas occupancy : List Nat) (withinDist : List Bool) (protect : List Nat)
    (hocc : occupancy.length = H * W) (hwd : withinDist.length = H * W)
    (hprot : protect.length = H * W)
    (harea : H * W ≤ 200 * countNonzero (stageSeamMask s H W occupancy withinDist protect)) :
    seamFillExecutes s H W (stageSeamMask s H W occupancy withinDist protect) = false ∧
    seamFillStage ops s H W canvas occupancy withinDist protect = canvas := by
  have hgate : meanLtGate (stageSeamMask s H W occupancy withinDist protect) 1 = false :=
    meanLtGate_false_of_large_count _ (H * W)
      (stageSeamMask_vals s H W occupancy withinDist protect)
      (stageSeamMask_length s H W occupancy withinDist protect hocc hwd hprot) harea
  have hexec : seamFillExecutes s H W (stageSeamMask s H W occupancy withinDist protect) = false := by
    unfold seamFillExecutes
    rw [hgate, Bool.and_false, Bool.false_and]
  refine ⟨hexec, ?_⟩
  unfold seamFillStage
  rw [hexec]
  simp

/-- Concrete run of C1: a 1 by 2 canvas whose two pixels are both gaps; the
candidate mask covers 100 percent of the canvas and the stage leaves the
canvas alone. -/
def enabledSettings : SeamFillSettings :=
  ⟨true, true, 15, .telea, 3⟩

theorem seamFill_skipped_when_area_ge_half_percent_witness :
    ([0, 0] : List Nat).length = 1 * 2 ∧
    1 * 2 ≤ 200 * countNonzero (stageSeamMask enabledSettings 1 2 [0, 0] [true, true] [0, 0]) ∧
    (seamFillExecutes enabledSettings 1 2
        (stageSeamMask enabledSettings 1 2 [0, 0] [true, true] [0, 0]) = false ∧
      seamFillStage trivialOps enabledSettings 1 2 [9, 9, 9] [0, 0] [true, true] [0, 0] = [9, 9, 9]) :=
  ⟨by decide, by decide,
    seamFill_skipped_when_area_ge_half_percent trivialOps enabledSettings 1 2
      [9, 9, 9] [0, 0] [true, true] [0, 0] (by decide) (by decide) (by decide) (by decide)⟩

/-- C2 fails on the code: on a 10 by 25 canvas a single gap pixel gives a
non-empty candidate mask of 1 pixel, 0.4 percent of the canvas, seam fill
enabled, yet the `seam_mask.mean() < 1.0` guard is false (the mean is
255/250) so the inpaint method is not applied and the canvas is returned
unchanged. -/
def cexOcc : List Nat := 0 :: List.replicate 249 1

/-- The test `seam_mask.mean() < 1.0` is, for a nonempty buffer, the
integer comparison of sum against length. -/
theorem meanLtGate_one_eq (m : List Nat) :
    meanLtGate m 1 = (decide (0 < m.length) && decide (m.sum < m.length)) := by
  unfold meanLtGate maskMean
  by_cases h0 : m.length = 0
  · simp [h0]
  · have hpos : (0 : ℚ) < (m.length : ℚ) := by
      exact_mod_cast Nat.pos_of_ne_zero h0
    congr 1
    apply decide_eq_decide.mpr
    rw [div_lt_one hpos]
    exact_mod_cast Iff.rfl

/-- The test `fill_area / float(total) < 0.005` is, for a nonzero total,
the integer comparison `1000 * fill_area < 5 * total`. -/
theorem areaGate_eq (count total : Nat) (h : 0 < total) :
    decide ((count : ℚ) / (total : ℚ) < 5 / 1000) = decide (1000 * count < 5 * total) := by
  apply decide_eq_decide.mpr
  have hpos : (0 : ℚ) < (total : ℚ) := by exact_mod_cast h
  rw [div_lt_div_iff hpos (by norm_num)]
  rw [show ((5 : ℚ) * (total : ℚ)) = ((5 * total : Nat) : ℚ) by push_cast; ring]
  rw [show ((count : ℚ) * 1000) = ((1000 * count : Nat) : ℚ) by push_cast; ring]
  exact_mod_cast Iff.rfl

/-- Integer form of the full guard chain of the seam-fill stage, valid for
a canvas with at least one pixel. -/
theorem seamFillExecutes_eq (s : SeamFillSettings) (H W : Nat) (m : List Nat)
    (h : 0 < H * W) :
    seamFillExecutes s H W m =
      (s.seam_fill_enabled && (decide (0 < m.length) && decide (m.sum < m.length))
        && decide (1000 * countNonzero m < 5 * (H * W))) := by
  unfold seamFillExecutes
  rw [meanLtGate_one_eq, areaGate_eq _ _ h]

set_option maxRecDepth 4000 in
theorem seamFill_small_area_counterexample :
    enabledSettings.seam_fill_enabled = true ∧
    countNonzero (stageSeamMask enabledSettings 10 25 cexOcc
      (List.replicate 250 true) (List.replicate 250 0)) ≠ 0 ∧
    200 * countNonzero (stageSeamMask enabledSettings 10 25 cexOcc
      (List.replicate 250 true) (List.replicate 250 0)) < 10 * 25 ∧
    seamFillExecutes enabledSettings 10 25 (stageSeamMask enabledSettings 10 25 cexOcc
      (List.replicate 250 true) (List.replicate 250 0)) = false ∧
    seamFillStage trivialOps enabledSettings 10 25 [1, 2, 3] cexOcc
      (List.replicate 250 true) (List.replicate 250 0) = [1, 2, 3] := by
  have hexec : seamFillExecutes enabledSettings 10 25 (stageSeamMask enabledSettings 10 25 cexOcc
      (List.replicate 250 true) (List.replicate 250 0)) = false := by
    rw [seamFillExecutes_eq _ _ _ _ (by decide)]
    decide
  refine ⟨rfl, by decide, by decide, hexec, ?_⟩
  unfold seamFillStage
  rw [hexec]
  simp

/-- C2 (amended): with seam fill enabled, the configured inpaint method is
applied at the configured radius to the candidate mask exactly under the
guard the code actually tests, `seam_mask.mean() < 1.0`: for a non-empty
0/255 candidate mask this means its nonzero count is below 1/255 of the
canvas pixel count (roughly 0.392 percent), not merely below 0.5 percent;
the inner 0.5 percent check then always passes. -/
theorem seamFill_applied_when_mean_below_one
    (ops : InpaintOps) (s : SeamFillSettings) (H W : Nat)
    (canvas occupancy : List Nat) (withinDist : List Bool) (protect : List Nat)
    (hocc : occupancy.length = H * W) (hwd : withinDist.length = H * W)
    (hprot : protect.length = H * W)
    (henabled : s.seam_fill_enabled = true)
    (hne : countNonzero (stageSeamMask s H W occupancy withinDist protect) ≠ 0)
    (hsmall : 255 * countNonzero (stageSeamMask s H W occupancy withinDist protect) < H * W) :
    seamFillStage ops s H W canvas occupancy withinDist protect =
      (seam_fill ops canvas (stageSeamMask s H W occupancy withinDist protect)
        s.inpaint_method s.inpaint_radius).filled := by
  have hsum : (stageSeamMask s H W occupancy withinDist protect).sum =
      255 * countNonzero (stageSeamMask s H W occupancy withinDist protect) :=
    sum_eq_255_mul_countNonzero _ (stageSeamMask_vals s H W occupancy withinDist protect)
  have hlen : (stageSeamMask s H W occupancy withinDist protect).length = H * W :=
    stageSeamMask_length s H W occupancy withinDist protect hocc hwd hprot
  have hpos : 0 < H * W := by omega
  have hexec : seamFillExecutes s H W (stageSeamMask s H W occupancy withinDist protect) = true := by
    rw [seamFillExecutes_eq _ _ _ _ hpos]
    have h1 : (stageSeamMask s H W occupancy withinDist protect).sum <
        (stageSeamMask s H W occupancy withinDist protect).length := by omega
    have h2 : 0 < (stageSeamMask s H W occupancy withinDist protect).length := by omega
    have h3 : 1000 * countNonzero (stageSeamMask s H W occupancy withinDist protect) <
        5 * (H * W) := by omega
    simp [henabled, h1, h2, h3]
  unfold seamFillStage
  rw [hexec]
  simp

/-- Concrete run of the amended C2: a 16 by 16 canvas with one gap pixel;
the candidate mask has one nonzero pixel, below 1/255 of the 256 canvas
pixels, so the stage output is the seam-fill result. -/
def occ256 : List Nat := 0 :: List.replicate 255 1

set_option maxRecDepth 4000 in
theorem seamFill_applied_when_mean_below_one_witness :
    ([7, 8] : List Nat) = [7, 8] ∧
    occ256.length = 16 * 16 ∧
    enabledSettings.seam_fill_enabled = true ∧
    countNonzero (stageSeamMask enabledSettings 16 16 occ256
      (List.replicate 256 true) (List.replicate 256 0)) ≠ 0 ∧
    255 * countNonzero (stageSeamMask enabledSettings 16 16 occ256
      (List.replicate 256 true) (List.replicate 256 0)) < 16 * 16 ∧
    seamFillStage trivialOps enabledSettings 16 16 [7, 8] occ256
      (List.replicate 256 true) (List.replicate 256 0) =
      (seam_fill trivialOps [7, 8] (stageSeamMask enabledSettings 16 16 occ256
        (List.replicate 256 true) (List.replicate 256 0))
        enabledSettings.inpaint_method enabledSettings.inpaint_radius).filled :=
  ⟨rfl, by decide, rfl, by decide, by decide,
    seamFill_applied_when_mean_below_one trivialOps enabledSettings 16 16 [7, 8] occ256
      (List.replicate 256 true) (List.replicate 256 0)
      (by decide) (by decide) (by decide) rfl (by decide) (by decide)⟩

/- ## Background mask policy selection (core/preprocess.py) -/

/-- Model of `compute_mask` (`core/preprocess.py` lines 26-35).  The two
policy masks are produced by external OpenCV colour conversions
(`_lab_paper_mask`: lightness at least `bg_threshold` and chroma below 12,
value 255; `_rgb_threshold_mask`: grayscale at least `bg_threshold`) and
enter as inputs; `close` abstracts the final 5x5 elliptic morphological
closing.  Under mode "lab_paper" the perceptual mask is replaced by the
grayscale mask when `mask.mean() < 0.1`. -/
def compute_mask (close : List Nat → List Nat) (bg_mode : String)
    (labMask rgbMask : List Nat) : List Nat :=
  close (if bg_mode = "lab_paper"
    then (if meanLtGate labMask (1 / 10) then rgbMask else labMask)
    else rgbMask)

/-- The test `mask.mean() < 0.1` is, for a nonempty buffer, the integer
comparison `10 * sum < length`. -/
theorem meanLtGate_tenth_eq (m : List Nat) :
    meanLtGate m (1 / 10) = (decide (0 < m.length) && decide (10 * m.sum < m.length)) := by
  unfold meanLtGate maskMean
  by_cases h0 : m.length = 0
  · simp [h0]
  · have hpos : (0 : ℚ) < (m.length : ℚ) := by
      exact_mod_cast Nat.pos_of_ne_zero h0
    congr 1
    apply decide_eq_decide.mpr
    rw [div_lt_div_iff hpos (by norm_num)]
    rw [show ((m.sum : ℚ) * 10) = ((10 * m.sum : Nat) : ℚ) by push_cast; ring]
    rw [show ((1 : ℚ) * (m.length : ℚ)) = ((m.length : Nat) : ℚ) by push_cast; ring]
    exact_mod_cast Iff.rfl

/-- C3 fails on the code: an all-background perceptual mask flags 0 percent
of the image as content (certainly under 0.1 percent), so the claim
demands a fallback to the grayscale policy; but the code tests
`mask.mean() < 0.1`, the mean here is 255, and the perceptual mask is kept. -/
theorem compute_mask_fallback_counterexample :
    1000 * countZero ([255, 255, 255, 255] : List Nat) <
      ([255, 255, 255, 255] : List Nat).length ∧
    meanLtGate ([255, 255, 255, 255] : List Nat) (1 / 10) = false ∧
    compute_mask id "lab_paper" [255, 255, 255, 255] [0, 0, 0, 0] = [255, 255, 255, 255] ∧
    ([255, 255, 255, 255] : List Nat) ≠ [0, 0, 0, 0] := by
  have hgate : meanLtGate ([255, 255, 255, 255] : List Nat) (1 / 10) = false := by
    rw [meanLtGate_tenth_eq]
    decide
  refine ⟨by decide, hgate, ?_, by decide⟩
  unfold compute_mask
  rw [hgate]
  simp

/-- C3 (amended): with bg_mode "lab_paper", `compute_mask` falls back from
the perceptual policy to the grayscale policy exactly when the perceptual
mask's mean is below 0.1 — for a 0/255-valued mask on a nonempty image
this means fewer than 1/2550 of the pixels (about 0.039 percent) are
flagged background (mask value 255), not fewer than 0.1 percent flagged
content (mask value 0). -/
theorem compute_mask_fallback_iff (close : List Nat → List Nat)
    (labMask rgbMask : List Nat)
    (hvals : ∀ v ∈ labMask, v = 0 ∨ v = 255) :
    (meanLtGate labMask (1 / 10) = true ↔
      0 < labMask.length ∧ 2550 * countNonzero labMask < labMask.length) ∧
    compute_mask close "lab_paper" labMask rgbMask =
      close (if meanLtGate labMask (1 / 10) then rgbMask else labMask) := by
  constructor
  · rw [meanLtGate_tenth_eq]
    have hsum : labMask.sum = 255 * countNonzero labMask :=
      sum_eq_255_mul_countNonzero labMask hvals
    simp only [Bool.and_eq_true, decide_eq_true_eq]
    constructor
    · rintro ⟨h1, h2⟩
      exact ⟨h1, by omega⟩
    · rintro ⟨h1, h2⟩
      exact ⟨h1, by omega⟩
  · unfold compute_mask
    simp

theorem compute_mask_fallback_iff_witness :
    (∀ v ∈ ([0] : List Nat), v = 0 ∨ v = 255) ∧
    ((meanLtGate ([0] : List Nat) (1 / 10) = true ↔
      0 < ([0] : List Nat).length ∧
        2550 * countNonzero ([0] : List Nat) < ([0] : List Nat).length) ∧
    compute_mask id "lab_paper" [0] [255] =
      id (if meanLtGate ([0] : List Nat) (1 / 10) then ([255] : List Nat) else [0])) :=
  ⟨by decide, compute_mask_fallback_iff id [0] [255] (by decide)⟩

/- ## Transform and layout data model (core/types.py) -/

/-- `TileTransform` (`core/types.py`): translation, anisotropic scale,
angle and matcher confidence, rationals standing in for Python floats. -/
structure TileTransform where
  dx : ℚ
  dy : ℚ
  scale_x : ℚ
  scale_y : ℚ
  angle_deg : ℚ
  confidence : ℚ
deriving DecidableEq, Repr

/-- The default `TileTransform()`: identity with zero confidence. -/
def idTransform : TileTransform :=
  ⟨0, 0, 1, 1, 0, 0⟩

/-- `TileLayout` (`core/types.py`): placement of one tile in canvas space. -/
structure TileLayout where
  origin_x : Int
  origin_y : Int
  tile_w : Nat
  tile_h : Nat
  transform : TileTransform
deriving DecidableEq, Repr

/-- `LayoutResult` (`core/types.py`): grid-coordinate-keyed placements
plus the fixed canvas size.  The Python dict keyed by `(x, y)` is an
association list here. -/
structure LayoutResult where
  placements : List ((Int × Int) × TileLayout)
  canvas_size : Int × Int
deriving DecidableEq, Repr

/-- The `f"{coord[0]},{coord[1]}"` key under which
`StitchWorker._apply_manual_transforms` looks up a manual override. -/
def coordKey (c : Int × Int) : String :=
  toString c.1 ++ "," ++ toString c.2

/-- Model of `StitchWorker._apply_manual_transforms` (`app/worker.py`
lines 135-139): for every placement whose key appears in the manual
transforms mapping, the refined transform is replaced verbatim by the
supplied one; no field of the override is inspected or adjusted. -/
def apply_manual_transforms (transforms : List (String × TileTransform))
    (layout : LayoutResult) : LayoutResult :=
  ⟨layout.placements.map (fun p =>
      match transforms.lookup (coordKey p.1) with
      | some t => (p.1, ⟨p.2.origin_x, p.2.origin_y, p.2.tile_w, p.2.tile_h, t⟩)
      | none => p),
    layout.canvas_size⟩

/-- Model of `clamp_scale` (`core/match.py` lines 63-65).  In the source
this helper is never invoked on manual overrides (nor anywhere else in
the stitching pipeline). -/
def clamp_scale (scale : ℚ) (max_percent : ℚ) : ℚ :=
  max (1 - max_percent / 100) (min (1 + max_percent / 100) scale)

/-- C4 as the claim is right and the code wrong: an externally supplied
manual override with scale_x = scale_y = 2.0 under the default
max_scale_percent = 0.5 is far outside the configured bound 1.005, yet
`_apply_manual_transforms` installs it verbatim into the placement whose
transform `_compose_canvas` then consumes; `clamp_scale`, which would
have produced 1.005, is dead code on this path. -/
theorem manual_scale_not_clamped :
    (apply_manual_transforms [("1,1", ⟨0, 0, 2, 2, 0, 1⟩)]
        ⟨[((1, 1), ⟨0, 0, 100, 100, idTransform⟩)], (100, 100)⟩).placements =
      [((1, 1), ⟨0, 0, 100, 100, ⟨0, 0, 2, 2, 0, 1⟩⟩)] ∧
    clamp_scale 2 (1 / 2) = 201 / 200 ∧
    (1 : ℚ) + (1 / 2) / 100 < 2 := by
  refine ⟨by decide, ?_, by norm_num⟩
  unfold clamp_scale
  norm_num

/- ## Initial grid layout (core/layout.py) -/

/-- Model of Python `max(xs) if xs else z`: the maximum of a nonempty
list, a default otherwise. -/
def pyMax {α : Type} [LinearOrder α] (z : α) : List α → α
  | [] => z
  | x :: xs => xs.foldl max x

/-- Folding max starting from the head bounds every element. -/
theorem foldl_max_le {α : Type} [LinearOrder α] (t : List α) :
    ∀ a x : α, x ∈ a :: t → x ≤ t.foldl max a := by
  induction t with
  | nil =>
    intro a x hx
    rw [List.mem_singleton] at hx
    simp [hx]
  | cons b t2 ih =>
    intro a x hx
    rcases List.mem_cons.mp hx with rfl | hx2
    · calc x ≤ max x b := le_max_left x b
        _ ≤ t2.foldl max (max x b) := ih (max x b) _ (List.mem_cons_self _ _)
    · rcases List.mem_cons.mp hx2 with rfl | hx3
      · calc x ≤ max a x := le_max_right a x
          _ ≤ t2.foldl max (max a x) := ih (max a x) _ (List.mem_cons_self _ _)
      · exact ih (max a b) x (List.mem_cons_of_mem _ hx3)

/-- Folding max starting from the head stays inside the list. -/
theorem foldl_max_mem {α : Type} [LinearOrder α] (t : List α) :
    ∀ a : α, t.foldl max a ∈ a :: t := by
  induction t with
  | nil => intro a; simp
  | cons b t2 ih =>
    intro a
    have h := ih (max a b)
    rcases List.mem_cons.mp h with he | ht2
    · rw [List.foldl_cons, he]
      rcases max_choice a b with h1 | h1 <;> rw [h1]
      · exact List.mem_cons_self _ _
      · exact List.mem_cons_of_mem _ (List.mem_cons_self _ _)
    · exact List.mem_cons_of_mem _ (List.mem_cons_of_mem _ ht2)

/-- `pyMax` bounds every element of the list. -/
theorem pyMax_ub {α : Type} [LinearOrder α] (z : α) (l : List α) (x : α)
    (hx : x ∈ l) : x ≤ pyMax z l := by
  cases l with
  | nil => cases hx
  | cons a t => exact foldl_max_le t a x hx

/-- `pyMax` of a nonempty list is attained. -/
theorem pyMax_mem {α : Type} [LinearOrder α] (z : α) (l : List α)
    (h : l ≠ []) : pyMax z l ∈ l := by
  cases l with
  | nil => exact absurd rfl h
  | cons a t => exact foldl_max_mem t a

/-- One input tile of `initial_layout`: grid coordinate `(x, y)` from the
filename and the decoded image dimensions `image.shape[0]` (height) and
`image.shape[1]` (width). -/
structure TileEnt where
  x : Int
  y : Int
  img_h : Nat
  img_w : Nat
deriving DecidableEq, Repr

/-- Model of `initial_layout` (`core/layout.py` lines 10-25): the cell is
the maximum tile width/height, each tile is placed at
`((y-1)*tile_w, (x-1)*tile_h)`, the canvas is
`(max_y*tile_w, max_x*tile_h)`. -/
def initial_layout (tiles : List TileEnt) : LayoutResult :=
  let max_x := pyMax 0 (tiles.map TileEnt.x)
  let max_y := pyMax 0 (tiles.map TileEnt.y)
  let tile_w := pyMax 0 (tiles.map TileEnt.img_w)
  let tile_h := pyMax 0 (tiles.map TileEnt.img_h)
  ⟨tiles.map (fun t => ((t.x, t.y),
      ⟨(t.y - 1) * (tile_w : Int), (t.x - 1) * (tile_h : Int), tile_w, tile_h,
        idTransform⟩)),
    ((max_y * (tile_w : Int), max_x * (tile_h : Int)))⟩

/-- C5: for every non-empty tile set, `initial_layout` places the tile at
grid coordinate `(x, y)` at origin `((y-1)*cell_w, (x-1)*cell_h)` where
`cell_w`/`cell_h` are the maxima of the tile widths/heights (upper bounds
attained on the set), and the canvas size is
`(max_column * cell_w, max_row * cell_h)`. -/
theorem initial_layout_spec (tiles : List TileEnt) (hne : tiles ≠ [])
    (t : TileEnt) (ht : t ∈ tiles) :
    ((t.x, t.y), (⟨(t.y - 1) * ((pyMax 0 (tiles.map TileEnt.img_w) : Nat) : Int),
        (t.x - 1) * ((pyMax 0 (tiles.map TileEnt.img_h) : Nat) : Int),
        pyMax 0 (tiles.map TileEnt.img_w), pyMax 0 (tiles.map TileEnt.img_h),
        idTransform⟩ : TileLayout)) ∈ (initial_layout tiles).placements ∧
    (initial_layout tiles).canvas_size =
      (pyMax 0 (tiles.map TileEnt.y) * ((pyMax 0 (tiles.map TileEnt.img_w) : Nat) : Int),
        pyMax 0 (tiles.map TileEnt.x) * ((pyMax 0 (tiles.map TileEnt.img_h) : Nat) : Int)) ∧
    (∀ u ∈ tiles, u.img_w ≤ pyMax 0 (tiles.map TileEnt.img_w) ∧
      u.img_h ≤ pyMax 0 (tiles.map TileEnt.img_h)) ∧
    pyMax 0 (tiles.map TileEnt.img_w) ∈ tiles.map TileEnt.img_w ∧
    pyMax 0 (tiles.map TileEnt.img_h) ∈ tiles.map TileEnt.img_h := by
  refine ⟨?_, rfl, ?_, ?_, ?_⟩
  · exact List.mem_map.mpr ⟨t, ht, rfl⟩
  · intro u hu
    exact ⟨pyMax_ub 0 _ u.img_w (List.mem_map_of_mem _ hu),
      pyMax_ub 0 _ u.img_h (List.mem_map_of_mem _ hu)⟩
  · exact pyMax_mem 0 _ (by simpa using hne)
  · exact pyMax_mem 0 _ (by simpa using hne)

theorem initial_layout_spec_witness :
    ([⟨1, 1, 10, 20⟩, ⟨1, 2, 30, 5⟩] : List TileEnt) ≠ [] ∧
    (⟨1, 2, 30, 5⟩ : TileEnt) ∈ ([⟨1, 1, 10, 20⟩, ⟨1, 2, 30, 5⟩] : List TileEnt) ∧
    (((1, 2), (⟨20, 0, 20, 30, idTransform⟩ : TileLayout)) ∈
        (initial_layout [⟨1, 1, 10, 20⟩, ⟨1, 2, 30, 5⟩]).placements ∧
      (initial_layout [⟨1, 1, 10, 20⟩, ⟨1, 2, 30, 5⟩]).canvas_size = (40, 30)) :=
  ⟨by decide, by decide, by
    have h := initial_layout_spec [⟨1, 1, 10, 20⟩, ⟨1, 2, 30, 5⟩] (by decide)
      ⟨1, 2, 30, 5⟩ (by decide)
    exact ⟨by simpa using h.1, by simpa using h.2.1⟩⟩

/- ## Transform persistence (core/io.py) -/

/-- JSON values as far as the transforms file uses them: numbers, strings
and objects (Python dicts with string keys, modelled as association
lists in insertion order, which `json.dumps`/`json.loads` preserve). -/
inductive Json where
  | num : ℚ → Json
  | str : String → Json
  | obj : List (String × Json) → Json

/-- `transform.__dict__` of a `TileTransform`: its six fields in
declaration order (`save_transforms`, `core/io.py` line 86). -/
def transform_dict (t : TileTransform) : List (String × Json) :=
  [("dx", .num t.dx), ("dy", .num t.dy), ("scale_x", .num t.scale_x),
    ("scale_y", .num t.scale_y), ("angle_deg", .num t.angle_deg),
    ("confidence", .num t.confidence)]

/-- Model of `save_transforms` (`core/io.py` lines 85-87): serialize the
mapping as a JSON object of per-transform field objects.  Writing the
text to disk is the identity on the JSON value. -/
def save_transforms (transforms : List (String × TileTransform)) : Json :=
  .obj (transforms.map (fun p => (p.1, Json.obj (transform_dict p.2))))

/-- The keyword parameters accepted by `TileTransform(**data)`. -/
def transformFieldNames : List String :=
  ["dx", "dy", "scale_x", "scale_y", "angle_deg", "confidence"]

/-- Read one numeric field out of a decoded JSON object, falling back to
the dataclass default when the key is absent (every `TileTransform` field
has a default).  A non-numeric value cannot inhabit the rational-typed
field of the model and decodes to `none`. -/
def getNum (fields : List (String × Json)) (name : String) (dflt : ℚ) : Option ℚ :=
  match fields.lookup name with
  | none => some dflt
  | some (Json.num q) => some q
  | some _ => none

/-- Model of `TileTransform(**data)`: a key outside the dataclass's
parameters raises TypeError (`none`); otherwise every field is taken from
the object or defaulted. -/
def tileTransformOfDict (fields : List (String × Json)) : Option TileTransform :=
  if fields.all (fun p => transformFieldNames.contains p.1) then
    match getNum fields "dx" 0, getNum fields "dy" 0, getNum fields "scale_x" 1,
      getNum fields "scale_y" 1, getNum fields "angle_deg" 0,
      getNum fields "confidence" 0 with
    | some dx, some dy, some sx, some sy, some ad, some cf =>
      some ⟨dx, dy, sx, sy, ad, cf⟩
    | _, _, _, _, _, _ => none
  else none

/-- The dict comprehension
`{name: TileTransform(**data) for name, data in payload.items()}`; a
failure for any entry aborts the whole load with the exception. -/
def decodeTransformEntries :
    List (String × Json) → Option (List (String × TileTransform))
  | [] => some []
  | (name, Json.obj fields) :: rest =>
    match tileTransformOfDict fields with
    | some t => (decodeTransformEntries rest).map (fun l => (name, t) :: l)
    | none => none
  | _ => none

/-- Model of `load_transforms` (`core/io.py` lines 78-82) applied to an
already-parsed JSON payload (reading and `json.loads` of the text written
by `save_transforms` reproduce the saved JSON value). -/
def load_transforms (payload : Json) : Option (List (String × TileTransform)) :=
  match payload with
  | .obj entries => decodeTransformEntries entries
  | _ => none

/-- Decoding the saved field object of a transform restores it exactly. -/
theorem tileTransformOfDict_transform_dict (t : TileTransform) :
    tileTransformOfDict (transform_dict t) = some t := by
  rfl

/-- C6: persisting a transform mapping with `save_transforms` and reading
it back with `load_transforms` reproduces the mapping exactly: the
composition is the identity (every entry decodes, in order, to itself). -/
theorem load_save_transforms_roundtrip (transforms : List (String × TileTransform)) :
    load_transforms (save_transforms transforms) = some transforms := by
  induction transforms with
  | nil => rfl
  | cons p rest ih =>
    obtain ⟨name, t⟩ := p
    have ih2 : decodeTransformEntries
        (rest.map (fun p => (p.1, Json.obj (transform_dict p.2)))) = some rest := ih
    show decodeTransformEntries
        (((name, t) :: rest).map (fun p => (p.1, Json.obj (transform_dict p.2)))) =
      some ((name, t) :: rest)
    simp only [List.map_cons]
    show (match tileTransformOfDict (transform_dict t) with
      | some u => (decodeTransformEntries
          (rest.map (fun p => (p.1, Json.obj (transform_dict p.2))))).map
            (fun l => (name, u) :: l)
      | none => none) = some ((name, t) :: rest)
    rw [tileTransformOfDict_transform_dict, ih2]
    rfl

/- ## Deskew angle estimation (core/preprocess.py) -/

/-- Model of `estimate_angle` (`core/preprocess.py` lines 52-62).  Contour
extraction and `cv2.minAreaRect` are external: `rectAngle` is the angle of
the minimum-area rectangle fitted to the largest external contour, `none`
when `findContours` finds nothing (the function then returns 0.0).  The
normalization into the upper branch cut and the clamping are the source's
own arithmetic. -/
def estimate_angle (rectAngle : Option ℚ) (max_angle : ℚ) : ℚ :=
  match rectAngle with
  | none => 0
  | some a =>
    max (-max_angle) (min max_angle (if a < -45 then a + 90 else a))

/-- C7: for every input (any minimum-area-rectangle angle, or no contour
at all) and every non-negative max_angle, the estimated deskew angle
satisfies abs angle at most max_angle. -/
theorem estimate_angle_abs_le (rectAngle : Option ℚ) (max_angle : ℚ)
    (h : 0 ≤ max_angle) :
    |estimate_angle rectAngle max_angle| ≤ max_angle := by
  unfold estimate_angle
  rcases rectAngle with _ | a
  · simpa using h
  · rw [abs_le]
    refine ⟨le_max_left _ _, max_le (by linarith) (min_le_left _ _)⟩

theorem estimate_angle_abs_le_witness :
    (0 : ℚ) ≤ 7 ∧ |estimate_angle (some 50) 7| ≤ 7 :=
  ⟨by norm_num, estimate_angle_abs_le (some 50) 7 (by norm_num)⟩

/- ## Feathered edge blending (core/blend.py) -/

/-- Model of `np.linspace(0, 1, n)`: `n` evenly spaced rationals from 0 to
1 (a single 0 for n = 1, empty for n = 0). -/
def linspace01 (n : Nat) : List ℚ :=
  if n ≤ 1 then List.replicate n 0
  else (List.range n).map (fun i => (i : ℚ) / ((n : ℚ) - 1))

/-- `.astype(np.uint8)` on the blended float: truncation to the integer
part (blend results are convex combinations of values in [0, 255], where
the C cast truncates toward zero, i.e. floors). -/
def toU8 (q : ℚ) : ℚ :=
  (⌊q⌋ : ℚ)

/-- One row of the blended strip `left*(1-alpha) + right*alpha` with the
per-column blend weights `ramp`. -/
def blendStripRow (ramp lrow rrow : List ℚ) : List ℚ :=
  ((lrow.zip rrow).zip ramp).map (fun p => toU8 (p.1.1 * (1 - p.2) + p.1.2 * p.2))

/-- Model of `feather_blend` (`core/blend.py` lines 9-22).  Images are
rows of single-channel rational pixels (the numpy arithmetic is
elementwise in the channel axis).  `blur` abstracts the 1-D
`cv2.GaussianBlur` applied to the ramp when `feather > 0`.  For
`overlap <= 0` both inputs are returned unmodified; otherwise the last
`overlap` columns of the first `h = min(heights)` rows of `left` and the
first `overlap` columns of those rows of `right` are both replaced by the
same blended strip. -/
def feather_blend (blur : List ℚ → List ℚ) (left right : List (List ℚ))
    (overlap feather : Int) : List (List ℚ) × List (List ℚ) :=
  if overlap ≤ 0 then (left, right)
  else
    let ov := overlap.toNat
    let ramp0 := linspace01 ov
    let ramp := if 0 < feather then blur ramp0 else ramp0
    let pairs := left.zip right
    let blended := pairs.map (fun p =>
      blendStripRow ramp (p.1.drop (p.1.length - ov)) (p.2.take ov))
    ((pairs.zip blended).map (fun q => q.1.1.take (q.1.1.length - ov) ++ q.2)
        ++ left.drop pairs.length,
      (pairs.zip blended).map (fun q => q.2 ++ q.1.2.drop ov)
        ++ right.drop pairs.length)

/-- Model of `feather_blend_vertical` (`core/blend.py` lines 25-38): the
transposed procedure on the last `overlap` rows of `top` and the first
`overlap` rows of `bottom`, restricted to the first
`w = min(widths)` columns, with a per-row ramp. -/
def feather_blend_vertical (blur : List ℚ → List ℚ) (top bottom : List (List ℚ))
    (overlap feather : Int) : List (List ℚ) × List (List ℚ) :=
  if overlap ≤ 0 then (top, bottom)
  else
    let ov := overlap.toNat
    let w := min (top.headD []).length (bottom.headD []).length
    let ramp0 := linspace01 ov
    let ramp := if 0 < feather then blur ramp0 else ramp0
    let tstrip := top.drop (top.length - ov)
    let bstrip := bottom.take ov
    let blended := ((tstrip.zip bstrip).zip ramp).map (fun q =>
      ((q.1.1.take w).zip (q.1.2.take w)).map
        (fun p => toU8 (p.1 * (1 - q.2) + p.2 * q.2)))
    (top.take (top.length - ov)
        ++ (blended.zip tstrip).map (fun q => q.1 ++ q.2.drop w),
      (blended.zip bstrip).map (fun q => q.1 ++ q.2.drop w)
        ++ bottom.drop ov)

/-- C8: `feather_blend` with overlap at most 0 returns both of its image
arguments unmodified, and so does `feather_blend_vertical`. -/
theorem feather_blend_identity_nonpos_overlap
    (blur : List ℚ → List ℚ) (left right top bottom : List (List ℚ))
    (overlap feather : Int) (h : overlap ≤ 0) :
    feather_blend blur left right overlap feather = (left, right) ∧
    feather_blend_vertical blur top bottom overlap feather = (top, bottom) := by
  constructor
  · unfold feather_blend
    rw [if_pos h]
  · unfold feather_blend_vertical
    rw [if_pos h]

theorem feather_blend_identity_nonpos_overlap_witness :
    ((0 : Int) ≤ 0) ∧
    (feather_blend id [[1]] [[2]] 0 5 = ([[1]], [[2]]) ∧
      feather_blend_vertical id [[3]] [[4]] 0 5 = ([[3]], [[4]])) :=
  ⟨by decide, feather_blend_identity_nonpos_overlap id [[1]] [[2]] [[3]] [[4]] 0 5 (by decide)⟩

/- ## Universal gap repair and the final gap check (app/worker.py) -/

/-- The occupancy effect of the universal gap repair in
`StitchWorker._run` (lines 106-112): when any gap pixel exists the canvas
is inpainted (an external `cv2.inpaint`, irrelevant to occupancy) and
`occupancy[gap_mask > 0] = 1`; with no gap pixels nothing happens. -/
def universalRepairOcc (occupancy : List Nat) : List Nat :=
  if 0 < countNonzero (gapMaskOf occupancy) then
    (occupancy.zip (gapMaskOf occupancy)).map (fun p => if 0 < p.2 then 1 else p.1)
  else occupancy

/-- The final residual-gap check of `StitchWorker._run` (lines 124-127):
recompute the gap mask from the occupancy left by the repair and warn iff
it has a nonzero pixel.  Occupancy is not touched between the repair and
this check (the seam-fill stage only rewrites the canvas). -/
def residualGapWarning (occupancy : List Nat) : Bool :=
  decide (0 < countNonzero (gapMaskOf (universalRepairOcc occupancy)))

/-- Nonzero pixels of a gap mask are exactly the zero pixels of the
occupancy it was derived from. -/
theorem gap_count_eq_countZero (xs : List Nat) :
    countNonzero (gapMaskOf xs) = countZero xs := by
  unfold countNonzero gapMaskOf countZero
  rw [List.countP_map]
  apply List.countP_congr
  intro a _
  by_cases h : a = 0 <;> simp [h]

/-- A pair drawn from the zip of a list with its own map has its second
component determined by the first. -/
theorem mem_zip_map_self {α β : Type} (f : α → β) :
    ∀ (l : List α) (p : α × β), p ∈ l.zip (l.map f) → p.2 = f p.1 := by
  intro l
  induction l with
  | nil => intro p hp; cases hp
  | cons a t ih =>
    intro p hp
    rw [List.map_cons, List.zip_cons_cons] at hp
    rcases List.mem_cons.mp hp with rfl | hp2
    · rfl
    · exact ih p hp2

/-- C9: the universal repair step writes occupancy 1 at every gap pixel
(at its own position), so the gap mask recomputed afterwards is all-zero
and the residual-gap warning branch can never execute, whatever the
occupancy left by composition. -/
theorem universal_repair_closes_all_gaps (occupancy : List Nat) :
    (∀ i (h1 : i < occupancy.length)
        (h2 : i < (universalRepairOcc occupancy).length),
      occupancy[i] = 0 → (universalRepairOcc occupancy)[i] = 1) ∧
    countNonzero (gapMaskOf (universalRepairOcc occupancy)) = 0 ∧
    residualGapWarning occupancy = false := by
  by_cases hgap : 0 < countNonzero (gapMaskOf occupancy)
  · have hrep : universalRepairOcc occupancy =
        (occupancy.zip (gapMaskOf occupancy)).map (fun p => if 0 < p.2 then 1 else p.1) := by
      unfold universalRepairOcc
      rw [if_pos hgap]
    have hzero : countNonzero (gapMaskOf (universalRepairOcc occupancy)) = 0 := by
      rw [gap_count_eq_countZero, hrep]
      apply List.countP_eq_zero.mpr
      intro a ha
      rcases List.mem_map.mp ha with ⟨p, hp, rfl⟩
      have hp2 : p.2 = (if p.1 = 0 then 255 else 0) :=
        mem_zip_map_self _ occupancy p hp
      by_cases h1 : p.1 = 0 <;> simp [hp2, h1]
    refine ⟨?_, hzero, ?_⟩
    · intro i h1 h2 hi0
      simp only [hrep, gapMaskOf, List.getElem_map, List.getElem_zip, hi0]
      simp
    · unfold residualGapWarning
      rw [hzero]
      simp
  · have hrep : universalRepairOcc occupancy = occupancy := by
      unfold universalRepairOcc
      rw [if_neg hgap]
    have hzero : countNonzero (gapMaskOf (universalRepairOcc occupancy)) = 0 := by
      rw [hrep]
      omega
    refine ⟨?_, hzero, ?_⟩
    · intro i h1 h2 hi0
      exfalso
      apply hgap
      rw [gap_count_eq_countZero]
      exact List.countP_pos.mpr ⟨occupancy[i], List.getElem_mem h1, by simp [hi0]⟩
    · unfold residualGapWarning
      rw [hzero]
      simp

theorem universal_repair_closes_all_gaps_witness :
    (0 : Nat) < ([0, 2] : List Nat).length ∧
    ((∀ i (h1 : i < ([0, 2] : List Nat).length)
        (h2 : i < (universalRepairOcc [0, 2]).length),
      ([0, 2] : List Nat)[i] = 0 → (universalRepairOcc [0, 2])[i] = 1) ∧
    countNonzero (gapMaskOf (universalRepairOcc [0, 2])) = 0 ∧
    residualGapWarning [0, 2] = false) :=
  ⟨by decide, universal_repair_closes_all_gaps [0, 2]⟩

/- ## Canvas composition slice arithmetic (app/worker.py) -/

/-- Normalization of one Python slice bound on a length-n axis: a
negative bound counts from the end, and the result is clamped into
[0, n]. -/
def normIdx (n : Nat) (i : Int) : Int :=
  if i < 0 then max ((n : Int) + i) 0 else min i (n : Int)

/-- Number of elements selected by `a[start:stop]` on a length-n axis. -/
def pySliceLen (n : Nat) (start stop : Int) : Nat :=
  (normIdx n stop - normIdx n start).toNat

/-- First index read by `a[start:stop]` on a length-n axis. -/
def pySliceStart (n : Nat) (start stop : Int) : Int :=
  normIdx n start

/-- The two slice rectangles of one tile placement in
`StitchWorker._compose_canvas`: destination on the canvas and the region
read from the tile. -/
structure ComposeSpans where
  destX : Int
  destY : Int
  destW : Nat
  destH : Nat
  srcX : Int
  srcY : Int
  srcW : Nat
  srcH : Nat
deriving DecidableEq, Repr

/-- Model of the placement arithmetic of `StitchWorker._compose_canvas`
(lines 164-172) for one tile of resized size w by h at effective origin
`(x0, y0)` (layout origin plus the truncated translation) on a canvas of
size W by H: `x1 = min(canvas_w, x0 + w)` and `y1 = min(canvas_h, y0 + h)`
are computed first, then `x0`/`y0` are clamped to 0, and the assignment is
`canvas[y0:y1, x0:x1] = image[:y1 - y0, :x1 - x0]`. -/
def composeSpans (W H w h : Nat) (x0 y0 : Int) : ComposeSpans :=
  ⟨pySliceStart W (max 0 x0) (min (W : Int) (x0 + w)),
    pySliceStart H (max 0 y0) (min (H : Int) (y0 + h)),
    pySliceLen W (max 0 x0) (min (W : Int) (x0 + w)),
    pySliceLen H (max 0 y0) (min (H : Int) (y0 + h)),
    pySliceStart w 0 (min (W : Int) (x0 + w) - max 0 x0),
    pySliceStart h 0 (min (H : Int) (y0 + h) - max 0 y0),
    pySliceLen w 0 (min (W : Int) (x0 + w) - max 0 x0),
    pySliceLen h 0 (min (H : Int) (y0 + h) - max 0 y0)⟩

/-- numpy broadcast admissibility of one axis of the assignment
`canvas[dest] = image[src]`: the source extent must equal the destination
extent or be 1. -/
def broadcastOk (src dst : Nat) : Bool :=
  src == dst || src == 1

/-- The assignment in `_compose_canvas` completes without a numpy
broadcast error exactly when both axes broadcast (the channel axis is 3
on both sides). -/
def composeStepOk (W H w h : Nat) (x0 y0 : Int) : Bool :=
  broadcastOk (composeSpans W H w h x0 y0).srcH (composeSpans W H w h x0 y0).destH
    && broadcastOk (composeSpans W H w h x0 y0).srcW (composeSpans W H w h x0 y0).destW

/-- C10 fails on the code: a 5 by 5 tile placed at effective origin
(12, 0) on a 10 by 10 canvas lies entirely beyond the right edge; the
destination slice `canvas[0:5, 12:10]` is empty (width 0) but the source
slice `image[:5, :-2]` has width 3, so the assignment raises a broadcast
error instead of contributing nothing. -/
theorem compose_canvas_counterexample :
    composeStepOk 10 10 5 5 12 0 = false ∧
    (composeSpans 10 10 5 5 12 0).destW = 0 ∧
    (composeSpans 10 10 5 5 12 0).srcW = 3 ∧
    (composeSpans 10 10 5 5 12 0).destH = 5 ∧
    (composeSpans 10 10 5 5 12 0).srcH = 5 := by
  decide

/-- One axis of the clipped placement: when the effective origin lies in
[-extent, axis length] the source and destination extents agree, the
destination stays inside the canvas, and the source always starts at
index 0. -/
theorem slice_axis_agree (N n : Nat) (a : Int)
    (hlo : -(n : Int) ≤ a) (hhi : a ≤ (N : Int)) :
    pySliceLen n 0 (min (N : Int) (a + n) - max 0 a) =
      pySliceLen N (max 0 a) (min (N : Int) (a + n)) ∧
    0 ≤ pySliceStart N (max 0 a) (min (N : Int) (a + n)) ∧
    pySliceStart N (max 0 a) (min (N : Int) (a + n)) +
      (pySliceLen N (max 0 a) (min (N : Int) (a + n)) : Int) ≤ (N : Int) ∧
    pySliceStart n 0 (min (N : Int) (a + n) - max 0 a) = 0 := by
  unfold pySliceLen pySliceStart normIdx
  refine ⟨?_, ?_, ?_, ?_⟩ <;> split_ifs <;> omega

/-- C10 (amended): `_compose_canvas` completes without error with exactly
agreeing (possibly empty) destination and source shapes whenever the
effective origin satisfies `-w <= x0 <= W` and `-h <= y0 <= H` (in
particular whenever the placement touches the canvas); the destination
rectangle is always clipped to canvas bounds, and the copied source
region always begins at the tile's top-left pixel (0, 0) — it is never
offset by the amount clipped for a negative origin.  For origins strictly
beyond the canvas the assignment can instead raise a broadcast error, as
the counterexample shows. -/
theorem compose_spans_ok_of_origin_in_range (W H w h : Nat) (x0 y0 : Int)
    (hx0 : -(w : Int) ≤ x0) (hx1 : x0 ≤ (W : Int))
    (hy0 : -(h : Int) ≤ y0) (hy1 : y0 ≤ (H : Int)) :
    (composeSpans W H w h x0 y0).srcW = (composeSpans W H w h x0 y0).destW ∧
    (composeSpans W H w h x0 y0).srcH = (composeSpans W H w h x0 y0).destH ∧
    composeStepOk W H w h x0 y0 = true ∧
    0 ≤ (composeSpans W H w h x0 y0).destX ∧
    (composeSpans W H w h x0 y0).destX +
      ((composeSpans W H w h x0 y0).destW : Int) ≤ (W : Int) ∧
    0 ≤ (composeSpans W H w h x0 y0).destY ∧
    (composeSpans W H w h x0 y0).destY +
      ((composeSpans W H w h x0 y0).destH : Int) ≤ (H : Int) ∧
    (composeSpans W H w h x0 y0).srcX = 0 ∧
    (composeSpans W H w h x0 y0).srcY = 0 := by
  obtain ⟨e1, e2, e3, e4⟩ := slice_axis_agree W w x0 hx0 hx1
  obtain ⟨f1, f2, f3, f4⟩ := slice_axis_agree H h y0 hy0 hy1
  refine ⟨e1, f1, ?_, e2, e3, f2, f3, e4, f4⟩
  unfold composeStepOk broadcastOk
  have g1 : (composeSpans W H w h x0 y0).srcW = (composeSpans W H w h x0 y0).destW := e1
  have g2 : (composeSpans W H w h x0 y0).srcH = (composeSpans W H w h x0 y0).destH := f1
  rw [g1, g2]
  simp

theorem compose_spans_ok_of_origin_in_range_witness :
    (-(4 : Int) ≤ -2 ∧ (-2 : Int) ≤ 10 ∧ -(4 : Int) ≤ 9 ∧ (9 : Int) ≤ 10) ∧
    ((composeSpans 10 10 4 4 (-2) 9).srcW = (composeSpans 10 10 4 4 (-2) 9).destW ∧
      (composeSpans 10 10 4 4 (-2) 9).srcH = (composeSpans 10 10 4 4 (-2) 9).destH ∧
      composeStepOk 10 10 4 4 (-2) 9 = true ∧
      0 ≤ (composeSpans 10 10 4 4 (-2) 9).destX ∧
      (composeSpans 10 10 4 4 (-2) 9).destX +
        ((composeSpans 10 10 4 4 (-2) 9).destW : Int) ≤ (10 : Int) ∧
      0 ≤ (composeSpans 10 10 4 4 (-2) 9).destY ∧
      (composeSpans 10 10 4 4 (-2) 9).destY +
        ((composeSpans 10 10 4 4 (-2) 9).destH : Int) ≤ (10 : Int) ∧
      (composeSpans 10 10 4 4 (-2) 9).srcX = 0 ∧
      (composeSpans 10 10 4 4 (-2) 9).srcY = 0) :=
  ⟨⟨by decide, by decide, by decide, by decide⟩,
    compose_spans_ok_of_origin_in_range 10 10 4 4 (-2) 9
      (by decide) (by decide) (by decide) (by decide)⟩
